import Mathlib

/-!
Verification development for the hybrid MCP gateway
(`bin/ruv-swarm-hybrid.js`): a dual-transport (stdio line-delimited
JSON-RPC + HTTP/SSE) tool-invocation gateway.

The embedding below translates the gateway's pure decision logic into
Lean definitions:

* JSON values, JSON-RPC requests/responses and error objects (§ data model);
* `handleMcpRequest` — the shared dispatcher (source lines 395-500);
* the stdio line loop: framing (lines 313-324), per-line parse/respond
  (lines 321-359);
* the SSE broadcaster's client/listener bookkeeping (lines 173-213);
* the lifecycle controller's mode selection (lines 548-574) and the
  stdin end-of-input handler (lines 365-372).

External platform primitives (`JSON.parse`, `JSON.stringify`, tool
handlers themselves, the logger) are modelled as parameters or symbolic
constructors; everything the gateway itself decides is executable.
-/

set_option linter.unusedVariables false

/-- JSON values (the payloads flowing through the gateway).
`Json.null` models the JavaScript `null` value. -/
inductive Json where
  | null : Json
  | bool (b : Bool) : Json
  | num (n : Int) : Json
  | str (s : String) : Json
  | arr (elems : List Json) : Json
  | obj (fields : List (String × Json)) : Json

/-- JavaScript strict-equality-with-null test (`result !== null` at source
line 459 is the negation of this). -/
def Json.isNull : Json → Bool
  | .null => true
  | _ => false

/-- JavaScript truthiness, negated: the values for which `v || {}` falls
back to `{}` (source line 446: `request.params.arguments || {}`).
Empty arrays and empty objects are truthy in JavaScript. -/
def jsFalsy : Json → Bool
  | .null => true
  | .bool b => !b
  | .num n => n == 0
  | .str s => s == ""
  | .arr _ => false
  | .obj _ => false

/-- Outcome of invoking a tool handler: it returns a value (possibly the
JavaScript `null`, modelled as `Json.null`), or it throws. -/
inductive ToolOutcome where
  | ret (value : Json) : ToolOutcome
  | throws (msg : String) : ToolOutcome

/-- A tool handler: a function-shaped registry member, invoked with the
arguments object. Tool semantics are external to the gateway. -/
def ToolHandler : Type := Json → ToolOutcome

/-- A registry (`mcpTools` / `daaMcpTools`): for a name it either exposes
a function-shaped member (`some handler`, i.e.
`typeof reg[name] === 'function'`) or it does not (`none`). -/
def ToolRegistry : Type := String → Option ToolHandler

/-- The registry lookup order of source lines 450-457: the primary
registry (`mcpTools`) is probed first; the secondary (`daaMcpTools`)
only when the primary exposes no function of that name. -/
def resolveTool (mcpTools daaMcpTools : ToolRegistry) (name : String) : Option ToolHandler :=
  match mcpTools name with
  | some h => some h
  | none => daaMcpTools name

/-- A JSON-RPC correlation id: string, number, or null. -/
inductive RpcId where
  | null : RpcId
  | num (n : Int) : RpcId
  | str (s : String) : RpcId
deriving DecidableEq, Repr

/-- A JSON-RPC error object `{code, message, data}`. In every error path
of the source, `data` is a string. -/
structure RpcError where
  code : Int
  message : String
  data : Option String
deriving DecidableEq, Repr

/-- Server identity returned by `initialize` (source lines 414-417). -/
structure ServerInfo where
  name : String
  version : String
deriving DecidableEq, Repr

/-- The text payload of a `tools/call` success result (source line 472:
`typeof result === 'string' ? result : JSON.stringify(result, null, 2)`).
`JSON.stringify` is a platform primitive, kept symbolic. -/
inductive ContentText where
  | plain (s : String) : ContentText
  | stringified (v : Json) : ContentText

/-- Source line 472's branch on `typeof result === 'string'`. -/
def renderContent : Json → ContentText
  | .str s => .plain s
  | v => .stringified v

/-- A JSON-RPC result payload, one constructor per dispatcher method
(source lines 403-474). -/
inductive RpcResult where
  | initializeResult (protocolVersion : String) (info : ServerInfo) : RpcResult
  | toolsList (toolNames : List String) : RpcResult
  | content (text : ContentText) : RpcResult

/-- `tools/call` parameters `{name, arguments}`; `arguments := none`
models an absent/undefined member (source line 446). -/
structure ToolCallParams where
  name : String
  arguments : Option Json

/-- An inbound JSON-RPC request. `params := none` models a request whose
`params` member is absent. -/
structure Request where
  id : RpcId
  method : String
  params : Option ToolCallParams

/-- An outbound JSON-RPC response: the echoed id plus `result` or
`error` (source lines 396-399 build the envelope, the dispatch fills
exactly one of the two fields). -/
structure Response where
  id : RpcId
  result : Option RpcResult
  error : Option RpcError

/-- An event published on the process-wide event bus
(`sseEventEmitter.emit('tool:executed', {tool, args, timestamp})`,
source lines 461-467). -/
inductive BusEvent where
  | toolExecuted (tool : String) (args : Json) (timestamp : String) : BusEvent

/-- The method-not-found error object (source lines 476-480, 485-489). -/
def methodNotFoundError (data : String) : RpcError :=
  { code := -32601, message := "Method not found", data := some data }

/-- The internal error object of the dispatcher's catch-all
(source lines 491-497). -/
def internalError (msg : String) : RpcError :=
  { code := -32603, message := "Internal error", data := some msg }

/-- The `arguments || {}` defaulting of source line 446. -/
def toolArgsOf : Option Json → Json
  | none => Json.obj []
  | some v => if jsFalsy v then Json.obj [] else v

/-- The shared MCP request dispatcher, source lines 395-500.

Parameters embed the source's ambient state: `mcpTools` / `daaMcpTools`
are the two registries, `sseClientCount` is `sseClients.size`,
`version` is the memoized `getVersion()` result, and `now` is
`new Date().toISOString()` at emission time.  Returns the response
together with the list of events published on the event bus during the
dispatch.  The `switch` on `request.method` is embedded as the
equivalent first-match conditional chain; the surrounding
`try/catch` surfaces as the `.throws` branch (the only faulting step a
well-formed request can reach is the tool handler itself; a
`tools/call` without a `params` object faults earlier, on
`request.params.name`, which the same catch converts to an internal
error). -/
def handleMcpRequest (mcpTools daaMcpTools : ToolRegistry) (sseClientCount : Nat)
    (version now : String) (request : Request) : Response × List BusEvent :=
  if request.method = "initialize" then
    ({ id := request.id,
       result := some (.initializeResult "2024-11-05" { name := "ruv-swarm-hybrid", version := version }),
       error := none }, [])
  else if request.method = "tools/list" then
    ({ id := request.id, result := some (.toolsList ["swarm_init"]), error := none }, [])
  else if request.method = "tools/call" then
    match request.params with
    | none =>
        ({ id := request.id, result := none,
           error := some (internalError "Cannot read properties of undefined (reading 'name')") }, [])
    | some p =>
        match resolveTool mcpTools daaMcpTools p.name with
        | none =>
            ({ id := request.id, result := none,
               error := some (methodNotFoundError ("Unknown tool: " ++ p.name)) }, [])
        | some handler =>
            match handler (toolArgsOf p.arguments) with
            | .throws msg =>
                ({ id := request.id, result := none, error := some (internalError msg) }, [])
            | .ret v =>
                if v.isNull then
                  ({ id := request.id, result := none,
                     error := some (methodNotFoundError ("Unknown tool: " ++ p.name)) }, [])
                else
                  ({ id := request.id,
                     result := some (.content (renderContent v)), error := none },
                   if sseClientCount > 0 then
                     [.toolExecuted p.name (toolArgsOf p.arguments) now]
                   else [])
  else
    ({ id := request.id, result := none,
       error := some (methodNotFoundError ("Unknown method: " ++ request.method)) }, [])

/-- The response component of a dispatch. -/
def respondToRequest (mcpTools daaMcpTools : ToolRegistry) (sseClientCount : Nat)
    (version now : String) (request : Request) : Response :=
  (handleMcpRequest mcpTools daaMcpTools sseClientCount version now request).1

/-! ## Stdio transport: per-line processing (source lines 321-359)

`JSON.parse` is a platform primitive; it is taken as a parameter
`parse : String → Except String Request` (the `String` of the `.error`
case is the thrown error's `.message`). -/

/-- The parse-error response written by the catch of source lines
349-358: `{jsonrpc, error: {code: -32700, message: 'Parse error',
data: error.message}, id: null}`. -/
def parseErrorResponse (msg : String) : Response :=
  { id := .null, result := none,
    error := some { code := -32700, message := "Parse error", data := some msg } }

/-- Processing of one non-blank line of the stdio stream (source lines
326-358): parse it, dispatch on success, emit the parse-error response
on failure. -/
def lineResponse (parse : String → Except String Request)
    (mcpTools daaMcpTools : ToolRegistry) (sseClientCount : Nat)
    (version now : String) (line : String) : Response :=
  match parse line with
  | .ok request => respondToRequest mcpTools daaMcpTools sseClientCount version now request
  | .error msg => parseErrorResponse msg

/-- A line is blank when `line.trim()` is falsy, i.e. every character
is whitespace (the guard of source line 322). -/
def jsBlankLine (line : String) : Bool :=
  line.data.all Char.isWhitespace

/-- The `for (const line of lines)` loop of source lines 321-360: each
line whose `trim()` is non-empty produces exactly one written response;
blank lines are skipped. Returns the responses in write order. -/
def processChunkLines (parse : String → Except String Request)
    (mcpTools daaMcpTools : ToolRegistry) (sseClientCount : Nat)
    (version now : String) : List String → List Response
  | [] => []
  | line :: rest =>
    if jsBlankLine line then
      processChunkLines parse mcpTools daaMcpTools sseClientCount version now rest
    else
      lineResponse parse mcpTools daaMcpTools sseClientCount version now line ::
        processChunkLines parse mcpTools daaMcpTools sseClientCount version now rest

/-- Responses written for a sequence of already-parsed stdio requests,
in arrival order (the loop body of source lines 327-345 restricted to
lines that parse). -/
def stdioResponses (mcpTools daaMcpTools : ToolRegistry) (sseClientCount : Nat)
    (version now : String) (requests : List Request) : List Response :=
  requests.map (respondToRequest mcpTools daaMcpTools sseClientCount version now)

/-- An observable event on the stdio wire: a request is parsed from the
buffer, or a response is written to stdout. -/
inductive WireEvent where
  | requestParsed (r : Request) : WireEvent
  | responseWritten (r : Response) : WireEvent

/-- The stdio wire trace for a sequence of parsed requests: the loop of
source lines 321-345 parses a line and then awaits and writes its
response before taking up the next line, so each request's
`responseWritten` immediately follows its `requestParsed`. -/
def stdioTrace (mcpTools daaMcpTools : ToolRegistry) (sseClientCount : Nat)
    (version now : String) : List Request → List WireEvent
  | [] => []
  | r :: rest =>
    .requestParsed r ::
      .responseWritten (respondToRequest mcpTools daaMcpTools sseClientCount version now r) ::
        stdioTrace mcpTools daaMcpTools sseClientCount version now rest

/-! ## Message framer (source lines 310-324)

Byte strings are `List Char`.  `buffer.split('\n')` is `splitNl`;
`lines.pop() || ''` is `List.getLastD _ []` after `List.dropLast`
(`splitNl` never returns `[]`, so JavaScript's `pop` never yields
`undefined` here). -/

/-- `s.split('\n')`: the segments of `s` between newline characters.
Always non-empty; a string with `n` newlines yields `n + 1` segments. -/
def splitNl : List Char → List (List Char)
  | [] => [[]]
  | c :: cs =>
    let rest := splitNl cs
    if c = '\n' then [] :: rest
    else
      match rest with
      | [] => [[c]]
      | l :: ls => (c :: l) :: ls

/-- Specification-side view of a byte stream: its complete
(newline-terminated) lines together with the trailing fragment after
the last newline. -/
def framedLines : List Char → List (List Char) × List Char
  | [] => ([], [])
  | c :: cs =>
    let r := framedLines cs
    if c = '\n' then ([] :: r.1, r.2)
    else
      match r.1 with
      | [] => ([], c :: r.2)
      | l :: ls => ((c :: l) :: ls, r.2)

/-- A line is blank when `line.trim()` is falsy: every character is
whitespace. -/
def isBlankLine (l : List Char) : Bool :=
  l.all Char.isWhitespace

/-- One `data` event of source lines 313-319: append the chunk to the
buffer, split on newlines, pop the trailing fragment back into the
buffer, and hand the complete lines to the loop. Returns (complete
lines in order, new buffer). -/
def framerStep (buffer chunk : List Char) : List (List Char) × List Char :=
  let lines := splitNl (buffer ++ chunk)
  (lines.dropLast, lines.getLastD [])

/-- The framer run over a whole sequence of chunks, collecting the
candidate messages actually processed (the lines passing the
`if (line.trim())` guard of source line 322, in order) and the final
buffer. -/
def framerRun (buffer : List Char) : List (List Char) → List (List Char) × List Char
  | [] => ([], buffer)
  | chunk :: rest =>
    let step := framerStep buffer chunk
    let tail := framerRun step.2 rest
    (step.1.filter (fun l => !(isBlankLine l)) ++ tail.1, tail.2)

/-! ## SSE broadcaster bookkeeping (source lines 173-213) -/

/-- The event types the `/events` handler subscribes each client to
(source lines 201-204).  Note `tool:executed` is not among them. -/
def sseListenedEvents : List String :=
  ["swarm:update", "agent:spawn", "task:update", "performance:metrics"]

/-- The broadcaster's mutable bookkeeping: the `sseClients` map's keys
(insertion order), the listeners registered on `sseEventEmitter` as
(event type, owning client) pairs, and the clients whose heartbeat
interval is live. -/
structure SseServerState where
  clients : List String
  listeners : List (String × String)
  heartbeats : List String
deriving DecidableEq, Repr

/-- The broadcaster state before any client connects. -/
def sseEmptyState : SseServerState :=
  { clients := [], listeners := [], heartbeats := [] }

/-- A client connecting to `GET /events` (source lines 173-204): it is
added to `sseClients`, a heartbeat interval is started, and one
listener per type in `sseListenedEvents` is registered on the shared
emitter, each writing to this client's response stream. -/
def sseConnect (st : SseServerState) (clientId : String) : SseServerState :=
  { clients := st.clients ++ [clientId],
    listeners := st.listeners ++ sseListenedEvents.map (fun t => (t, clientId)),
    heartbeats := st.heartbeats ++ [clientId] }

/-- The disconnect teardown of source lines 207-212:
`clearInterval(heartbeat)` cancels this client's heartbeat,
`sseClients.delete(clientId)` removes it from the client set, and
`sseEventEmitter.removeAllListeners()` removes every listener of every
event type — including those owned by other clients. -/
def sseDisconnect (st : SseServerState) (clientId : String) : SseServerState :=
  { clients := st.clients.filter (fun c => c ≠ clientId),
    listeners := [],
    heartbeats := st.heartbeats.filter (fun c => c ≠ clientId) }

/-- The clients whose stream receives an `event: <eventType>` frame when
that event type is emitted on the shared emitter: exactly the owners of
the listeners registered for it (each listener's `sendEvent` writes to
its owner's response, source lines 196-199). -/
def deliveredTo (st : SseServerState) (eventType : String) : List String :=
  (st.listeners.filter (fun p => p.1 = eventType)).map (fun p => p.2)

/-! ## Lifecycle controller (source lines 548-574, 365-372) -/

/-- The run mode resolved from the CLI flags (source lines 548-550). -/
inductive Mode where
  | stdio : Mode
  | http : Mode
  | hybrid : Mode
deriving DecidableEq, Repr

/-- `main` starts the stdio server for `stdio` and `hybrid`
(source lines 560-562). -/
def startsStdioServer : Mode → Bool
  | .stdio => true
  | .http => false
  | .hybrid => true

/-- `main` starts the HTTP/SSE server for `http` and `hybrid`
(source lines 564-566). -/
def startsHttpServer : Mode → Bool
  | .stdio => false
  | .http => true
  | .hybrid => true

/-- `startStdioServer` registers `process.stdin.on('end', ...)` whose
body calls `process.exit(0)` (source lines 365-372); so stdin reaching
end-of-input terminates the whole process exactly when the stdio
server was started. -/
def exitsOnStdinEnd (mode : Mode) : Bool :=
  startsStdioServer mode

/-- The keep-alive interval of source lines 569-574 is installed when
the keep-alive flag, the daemon flag, or an HTTP-serving mode is
active. -/
def keepAliveInstalled (mode : Mode) (keepAlive isDaemon : Bool) : Bool :=
  keepAlive || isDaemon || mode == .http || mode == .hybrid

/-! ## Concrete instantiations used by witnesses and counterexample runs -/

/-- A handler that succeeds with a non-null string result. -/
def okHandler : ToolHandler := fun _ => .ret (Json.str "ok")

/-- A handler that runs and returns the JavaScript `null`. -/
def nullHandler : ToolHandler := fun _ => .ret Json.null

/-- A handler that throws. -/
def throwHandler : ToolHandler := fun _ => .throws "boom"

/-- A concrete primary registry exposing `swarm_init`. -/
def demoMcp : ToolRegistry := fun name =>
  if name = "swarm_init" then some okHandler else none

/-- A concrete secondary registry that also exposes `swarm_init`
(with a different handler) plus its own `daa_init`. -/
def demoDaa : ToolRegistry := fun name =>
  if name = "swarm_init" then some nullHandler
  else if name = "daa_init" then some okHandler
  else none

/-- A registry exposing no tools. -/
def emptyRegistry : ToolRegistry := fun _ => none

/-- A primary registry whose only tool returns `null`. -/
def nullToolMcp : ToolRegistry := fun name =>
  if name = "null_tool" then some nullHandler else none

/-- A primary registry whose only tool throws. -/
def throwToolMcp : ToolRegistry := fun name =>
  if name = "bad_tool" then some throwHandler else none

/-- A concrete stand-in for `JSON.parse`: fails on the literal line
`not-json`, parses anything else to an `initialize` request. -/
def demoParse : String → Except String Request := fun line =>
  if line = "not-json" then Except.error "Unexpected token"
  else Except.ok { id := RpcId.num 1, method := "initialize", params := none }

/-- A concrete parsed `initialize` request. -/
def demoInitRequest : Request :=
  { id := RpcId.num 1, method := "initialize", params := none }

/-! ## Claim theorems -/

/-- C1 (code bug): a successful `tools/call` dispatched while one SSE
client is connected does publish `tool:executed` on the shared emitter,
but the `/events` connection registers listeners only for the four
types of `sseListenedEvents` — `tool:executed` is not among them — so
no connected client's SSE stream ever renders an
`event: tool:executed` frame, contradicting the claim. -/
theorem c1_tool_executed_event_not_delivered_to_sse :
    ("tool:executed" ∉ sseListenedEvents)
    ∧ (let st := sseConnect sseEmptyState "client1"
       let r := handleMcpRequest demoMcp emptyRegistry st.clients.length
                  "1.0.18" "2025-07-01T00:00:00.000Z"
                  { id := .num 1, method := "tools/call",
                    params := some { name := "swarm_init", arguments := none } }
       r.1.error = none
       ∧ r.2 = [BusEvent.toolExecuted "swarm_init" (Json.obj [])
                  "2025-07-01T00:00:00.000Z"]
       ∧ st.clients = ["client1"]
       ∧ deliveredTo st "tool:executed" = []) := by
  exact ⟨by decide, rfl, rfl, rfl, rfl⟩

/-- C2 (code bug): with clients `c1` and `c2` both connected, each of
them receives `swarm:update` frames; after `c1` disconnects, the
teardown's `removeAllListeners()` leaves `c2` in the client set and
with a live heartbeat but with zero listeners, so `c2` no longer
receives any events — contradicting the claim that only the
disconnecting client's handlers are unsubscribed. -/
theorem c2_disconnect_silences_other_clients :
    (let st2 := sseConnect (sseConnect sseEmptyState "c1") "c2"
     let st3 := sseDisconnect st2 "c1"
     deliveredTo st2 "swarm:update" = ["c1", "c2"]
     ∧ st3.clients = ["c2"]
     ∧ st3.heartbeats = ["c2"]
     ∧ st3.listeners = []
     ∧ deliveredTo st3 "swarm:update" = []) := by
  exact ⟨rfl, rfl, rfl, rfl, rfl⟩

/-- C3 (code bug): in hybrid mode the HTTP transport is active, yet the
stdio server's `stdin.on('end')` handler — also installed in hybrid
mode — calls `process.exit(0)`, so stdin closing terminates the whole
process (HTTP transport included), contradicting the claim; only pure
`http` mode survives stdin closing, where the keep-alive interval is
installed. -/
theorem c3_hybrid_mode_exits_on_stdin_end :
    startsHttpServer Mode.hybrid = true
    ∧ exitsOnStdinEnd Mode.hybrid = true
    ∧ exitsOnStdinEnd Mode.http = false
    ∧ keepAliveInstalled Mode.http false false = true := by
  exact ⟨rfl, rfl, rfl, rfl⟩

/-- The dispatcher always echoes the triggering request's id: the
response envelope is built with `id: request.id` before any dispatch
branch runs (source lines 396-399). -/
theorem respondToRequest_id (mcpTools daaMcpTools : ToolRegistry) (sse : Nat)
    (version now : String) (request : Request) :
    (respondToRequest mcpTools daaMcpTools sse version now request).id = request.id := by
  unfold respondToRequest handleMcpRequest
  repeat' split
  all_goals rfl

/-- C6 (confirmed): when the primary registry exposes a function-shaped
member for a name, the lookup resolves to the primary's handler; the
secondary registry is consulted only when the primary exposes none, and
a `tools/call` dispatch for such a name is wholly independent of the
secondary registry's contents. -/
theorem c6_registry_precedence (mcpTools daaMcpTools daaMcpTools' : ToolRegistry)
    (name : String) (h : ToolHandler) (hm : mcpTools name = some h)
    (sse : Nat) (version now : String) (rid : RpcId) (args : Option Json) :
    resolveTool mcpTools daaMcpTools name = some h
    ∧ (∀ n, mcpTools n = none → resolveTool mcpTools daaMcpTools n = daaMcpTools n)
    ∧ handleMcpRequest mcpTools daaMcpTools sse version now
        { id := rid, method := "tools/call", params := some { name := name, arguments := args } }
      = handleMcpRequest mcpTools daaMcpTools' sse version now
        { id := rid, method := "tools/call", params := some { name := name, arguments := args } } := by
  refine ⟨?_, ?_, ?_⟩
  · simp [resolveTool, hm]
  · intro n hn
    simp [resolveTool, hn]
  · simp [handleMcpRequest, resolveTool, hm]

/-- Witness for C6: `swarm_init` lives in both demo registries; the
resolved handler is the primary's `okHandler`, not the secondary's. -/
theorem c6_registry_precedence_witness :
    resolveTool demoMcp demoDaa "swarm_init" = some okHandler :=
  (c6_registry_precedence demoMcp demoDaa emptyRegistry "swarm_init" okHandler rfl
    0 "1.0.18" "T" (.num 1) none).1

/-- C8 (confirmed): a `tools/call` whose name resolves in no registry
answers with code `-32601`, message `Method not found` and the tool
name in `data`; a request whose method is none of `initialize`,
`tools/list`, `tools/call` answers with code `-32601`, message
`Method not found` and the method name in `data`. -/
theorem c8_method_not_found_errors (mcpTools daaMcpTools : ToolRegistry)
    (sse : Nat) (version now : String) (rid rid' : RpcId)
    (name : String) (args : Option Json) (m : String) (ps : Option ToolCallParams)
    (hm : mcpTools name = none) (hd : daaMcpTools name = none)
    (h1 : m ≠ "initialize") (h2 : m ≠ "tools/list") (h3 : m ≠ "tools/call") :
    (respondToRequest mcpTools daaMcpTools sse version now
        { id := rid, method := "tools/call", params := some { name := name, arguments := args } }).error
      = some { code := -32601, message := "Method not found", data := some ("Unknown tool: " ++ name) }
    ∧ (respondToRequest mcpTools daaMcpTools sse version now
        { id := rid', method := m, params := ps }).error
      = some { code := -32601, message := "Method not found", data := some ("Unknown method: " ++ m) } := by
  constructor
  · simp [respondToRequest, handleMcpRequest, resolveTool, hm, hd, methodNotFoundError]
  · simp [respondToRequest, handleMcpRequest, h1, h2, h3, methodNotFoundError]

/-- Witness for C8: the tool `nonexistent_tool` resolves in neither
demo registry, and the method `resources/list` is not dispatched. -/
theorem c8_method_not_found_errors_witness :
    (respondToRequest demoMcp demoDaa 0 "1.0.18" "T"
        { id := .num 2, method := "tools/call",
          params := some { name := "nonexistent_tool", arguments := none } }).error
      = some { code := -32601, message := "Method not found",
               data := some ("Unknown tool: " ++ "nonexistent_tool") }
    ∧ (respondToRequest demoMcp demoDaa 0 "1.0.18" "T"
        { id := .num 3, method := "resources/list", params := none }).error
      = some { code := -32601, message := "Method not found",
               data := some ("Unknown method: " ++ "resources/list") } :=
  c8_method_not_found_errors demoMcp demoDaa 0 "1.0.18" "T" (.num 2) (.num 3)
    "nonexistent_tool" none "resources/list" none rfl rfl
    (by decide) (by decide) (by decide)

/-- C9 (confirmed): when the resolved tool handler throws, the
dispatcher's catch converts the fault to a response with code `-32603`
carrying the fault's message in `data` (no result, no published
event), and the gateway keeps serving: a request stream containing
the faulting request still yields one response per request. -/
theorem c9_internal_error_on_throw (mcpTools daaMcpTools : ToolRegistry)
    (sse : Nat) (version now : String) (rid : RpcId)
    (name : String) (args : Option Json) (handler : ToolHandler) (msg : String)
    (pre post : List Request)
    (hres : resolveTool mcpTools daaMcpTools name = some handler)
    (hthrow : handler (toolArgsOf args) = .throws msg) :
    (respondToRequest mcpTools daaMcpTools sse version now
        { id := rid, method := "tools/call", params := some { name := name, arguments := args } }).error
      = some { code := -32603, message := "Internal error", data := some msg }
    ∧ (respondToRequest mcpTools daaMcpTools sse version now
        { id := rid, method := "tools/call", params := some { name := name, arguments := args } }).result
      = none
    ∧ (handleMcpRequest mcpTools daaMcpTools sse version now
        { id := rid, method := "tools/call", params := some { name := name, arguments := args } }).2
      = []
    ∧ (stdioResponses mcpTools daaMcpTools sse version now
        (pre ++ { id := rid, method := "tools/call",
                  params := some { name := name, arguments := args } } :: post)).length
      = pre.length + 1 + post.length := by
  refine ⟨?_, ?_, ?_, ?_⟩
  · simp [respondToRequest, handleMcpRequest, hres, hthrow, internalError]
  · simp [respondToRequest, handleMcpRequest, hres, hthrow, internalError]
  · simp [handleMcpRequest, hres, hthrow]
  · simp [stdioResponses]
    omega

/-- Witness for C9: `bad_tool` throws `boom`; the response is the
internal error and the surrounding batch is fully answered. -/
theorem c9_internal_error_on_throw_witness :
    (respondToRequest throwToolMcp emptyRegistry 0 "1.0.18" "T"
        { id := .num 4, method := "tools/call",
          params := some { name := "bad_tool", arguments := none } }).error
      = some { code := -32603, message := "Internal error", data := some "boom" }
    ∧ (respondToRequest throwToolMcp emptyRegistry 0 "1.0.18" "T"
        { id := .num 4, method := "tools/call",
          params := some { name := "bad_tool", arguments := none } }).result
      = none
    ∧ (handleMcpRequest throwToolMcp emptyRegistry 0 "1.0.18" "T"
        { id := .num 4, method := "tools/call",
          params := some { name := "bad_tool", arguments := none } }).2
      = []
    ∧ (stdioResponses throwToolMcp emptyRegistry 0 "1.0.18" "T"
        ([demoInitRequest] ++ { id := .num 4, method := "tools/call",
                                params := some { name := "bad_tool", arguments := none } }
                           :: [demoInitRequest])).length
      = 1 + 1 + 1 :=
  c9_internal_error_on_throw throwToolMcp emptyRegistry 0 "1.0.18" "T" (.num 4)
    "bad_tool" none throwHandler "boom" [demoInitRequest] [demoInitRequest] rfl rfl

/-- C10 (confirmed): a `tools/call` whose resolved handler runs and
returns the JavaScript `null` is answered with the method-not-found
error (`-32601`, data `Unknown tool: <name>`) and publishes nothing;
only a non-null return value yields the success result, and the
`tool:executed` publication happens exactly when at least one SSE
client is connected. -/
theorem c10_null_result_method_not_found (mcpTools daaMcpTools : ToolRegistry)
    (sse : Nat) (version now : String) (rid : RpcId)
    (name : String) (args : Option Json) (handler : ToolHandler)
    (hres : resolveTool mcpTools daaMcpTools name = some handler) :
    (handler (toolArgsOf args) = ToolOutcome.ret Json.null →
      (respondToRequest mcpTools daaMcpTools sse version now
          { id := rid, method := "tools/call", params := some { name := name, arguments := args } }).error
        = some (methodNotFoundError ("Unknown tool: " ++ name))
      ∧ (respondToRequest mcpTools daaMcpTools sse version now
          { id := rid, method := "tools/call", params := some { name := name, arguments := args } }).result
        = none
      ∧ (handleMcpRequest mcpTools daaMcpTools sse version now
          { id := rid, method := "tools/call", params := some { name := name, arguments := args } }).2
        = [])
    ∧ (∀ v, handler (toolArgsOf args) = ToolOutcome.ret v → v.isNull = false →
      (respondToRequest mcpTools daaMcpTools sse version now
          { id := rid, method := "tools/call", params := some { name := name, arguments := args } }).result
        = some (RpcResult.content (renderContent v))
      ∧ (respondToRequest mcpTools daaMcpTools sse version now
          { id := rid, method := "tools/call", params := some { name := name, arguments := args } }).error
        = none
      ∧ (handleMcpRequest mcpTools daaMcpTools sse version now
          { id := rid, method := "tools/call", params := some { name := name, arguments := args } }).2
        = (if sse > 0 then [BusEvent.toolExecuted name (toolArgsOf args) now] else [])) := by
  constructor
  · intro hnull
    refine ⟨?_, ?_, ?_⟩ <;>
      simp [respondToRequest, handleMcpRequest, hres, hnull, Json.isNull]
  · intro v hret hnn
    refine ⟨?_, ?_, ?_⟩ <;>
      simp [respondToRequest, handleMcpRequest, hres, hret, hnn]

/-- Witness for C10: `null_tool` exists, runs, and returns `null`; the
response is the `-32601` unknown-tool error and nothing is published. -/
theorem c10_null_result_method_not_found_witness :
    (respondToRequest nullToolMcp emptyRegistry 1 "1.0.18" "T"
        { id := .num 5, method := "tools/call",
          params := some { name := "null_tool", arguments := none } }).error
      = some (methodNotFoundError ("Unknown tool: " ++ "null_tool"))
    ∧ (respondToRequest nullToolMcp emptyRegistry 1 "1.0.18" "T"
        { id := .num 5, method := "tools/call",
          params := some { name := "null_tool", arguments := none } }).result
      = none
    ∧ (handleMcpRequest nullToolMcp emptyRegistry 1 "1.0.18" "T"
        { id := .num 5, method := "tools/call",
          params := some { name := "null_tool", arguments := none } }).2
      = [] :=
  (c10_null_result_method_not_found nullToolMcp emptyRegistry 1 "1.0.18" "T" (.num 5)
    "null_tool" none nullHandler rfl).1 rfl

/-- Positions on the stdio wire trace: the i-th parsed request sits at
trace slot `2*i` and its response is written at slot `2*i + 1` — in
particular after the request. -/
theorem stdioTrace_get? (mcpTools daaMcpTools : ToolRegistry) (sse : Nat)
    (version now : String) :
    ∀ (reqs : List Request) (i : Nat) (r : Request), reqs.get? i = some r →
      (stdioTrace mcpTools daaMcpTools sse version now reqs).get? (2 * i)
        = some (.requestParsed r)
      ∧ (stdioTrace mcpTools daaMcpTools sse version now reqs).get? (2 * i + 1)
        = some (.responseWritten (respondToRequest mcpTools daaMcpTools sse version now r))
  | [], i, r, h => by simp at h
  | q :: rest, 0, r, h => by
      simp only [List.get?_cons_zero, Option.some.injEq] at h
      subst h
      exact ⟨rfl, rfl⟩
  | q :: rest, i + 1, r, h => by
      have ih := stdioTrace_get? mcpTools daaMcpTools sse version now rest i r
        (by simpa using h)
      have e1 : 2 * (i + 1) = 2 * i + 1 + 1 := by omega
      have e2 : 2 * (i + 1) + 1 = 2 * i + 1 + 1 + 1 := by omega
      refine ⟨?_, ?_⟩
      · rw [e1]
        simp only [stdioTrace, List.get?_cons_succ]
        exact ih.1
      · rw [e2]
        simp only [stdioTrace, List.get?_cons_succ]
        exact ih.2

/-- C5 (confirmed): for the i-th request parsed from the stdio
transport (non-null id), the response stream has exactly one entry per
request, its i-th entry is the dispatch of the i-th request, that
response's id equals the request's id, and on the wire trace the
response (slot `2*i + 1`) is written after the request was parsed
(slot `2*i`). -/
theorem c5_response_correlation (mcpTools daaMcpTools : ToolRegistry) (sse : Nat)
    (version now : String) (reqs : List Request) (i : Nat) (r : Request)
    (hr : reqs.get? i = some r) (hid : r.id ≠ RpcId.null) :
    (stdioResponses mcpTools daaMcpTools sse version now reqs).length = reqs.length
    ∧ (stdioResponses mcpTools daaMcpTools sse version now reqs).get? i
        = some (respondToRequest mcpTools daaMcpTools sse version now r)
    ∧ (respondToRequest mcpTools daaMcpTools sse version now r).id = r.id
    ∧ (stdioTrace mcpTools daaMcpTools sse version now reqs).get? (2 * i)
        = some (.requestParsed r)
    ∧ (stdioTrace mcpTools daaMcpTools sse version now reqs).get? (2 * i + 1)
        = some (.responseWritten (respondToRequest mcpTools daaMcpTools sse version now r)) := by
  refine ⟨?_, ?_, respondToRequest_id mcpTools daaMcpTools sse version now r, ?_, ?_⟩
  · simp [stdioResponses]
  · simp only [stdioResponses, List.get?_map, hr, Option.map_some']
  · exact (stdioTrace_get? mcpTools daaMcpTools sse version now reqs i r hr).1
  · exact (stdioTrace_get? mcpTools daaMcpTools sse version now reqs i r hr).2

/-- Witness for C5: a single `initialize` request with id 1 yields one
response whose id is 1. -/
theorem c5_response_correlation_witness :
    (stdioResponses emptyRegistry emptyRegistry 0 "1.0.18" "T" [demoInitRequest]).length = 1
    ∧ (respondToRequest emptyRegistry emptyRegistry 0 "1.0.18" "T" demoInitRequest).id
        = RpcId.num 1 := by
  have h := c5_response_correlation emptyRegistry emptyRegistry 0 "1.0.18" "T"
      [demoInitRequest] 0 demoInitRequest rfl (by decide)
  exact ⟨h.1, h.2.2.1⟩

/-- C7 (confirmed): a non-blank line that fails to parse yields exactly
the `-32700` parse-error response with id null, in place; every other
line of the batch — before and after it — is processed exactly as it
would be on its own, and processing continues (the connection is never
dropped). -/
theorem c7_parse_error_isolation (parse : String → Except String Request)
    (mcpTools daaMcpTools : ToolRegistry) (sse : Nat) (version now : String)
    (pre post : List String) (bad msg : String)
    (hparse : parse bad = .error msg) (hnb : jsBlankLine bad = false) :
    processChunkLines parse mcpTools daaMcpTools sse version now (pre ++ bad :: post)
      = processChunkLines parse mcpTools daaMcpTools sse version now pre
        ++ parseErrorResponse msg
          :: processChunkLines parse mcpTools daaMcpTools sse version now post
    ∧ (parseErrorResponse msg).error
        = some { code := -32700, message := "Parse error", data := some msg }
    ∧ (parseErrorResponse msg).id = RpcId.null := by
  refine ⟨?_, rfl, rfl⟩
  induction pre with
  | nil => simp [processChunkLines, hnb, lineResponse, hparse]
  | cons a pre ih =>
      by_cases ha : jsBlankLine a = true <;>
        simp [processChunkLines, ha, ih]

/-- Witness for C7: the literal line `not-json` fails `demoParse`
between two good lines; it alone becomes the parse-error response. -/
theorem c7_parse_error_isolation_witness :
    processChunkLines demoParse emptyRegistry emptyRegistry 0 "1.0.18" "T"
        (["good"] ++ "not-json" :: ["good2"])
      = processChunkLines demoParse emptyRegistry emptyRegistry 0 "1.0.18" "T" ["good"]
        ++ parseErrorResponse "Unexpected token"
          :: processChunkLines demoParse emptyRegistry emptyRegistry 0 "1.0.18" "T" ["good2"] :=
  (c7_parse_error_isolation demoParse emptyRegistry emptyRegistry 0 "1.0.18" "T"
    ["good"] ["good2"] "not-json" "Unexpected token" rfl (by decide)).1

/-- `splitNl` is the framed-lines decomposition with the trailing
fragment appended as a final segment (`split('\n')` always ends with
the text after the last newline). -/
theorem splitNl_eq_framedLines (s : List Char) :
    splitNl s = (framedLines s).1 ++ [(framedLines s).2] := by
  induction s with
  | nil => rfl
  | cons c cs ih =>
    simp only [splitNl, framedLines, ih]
    by_cases hc : c = '\n'
    · simp [hc]
    · simp only [if_neg hc]
      cases h : (framedLines cs).1 with
      | nil => simp
      | cons l ls => simp

/-- The trailing fragment of a framed stream contains no newline. -/
theorem framedLines_snd_no_newline (s : List Char) : '\n' ∉ (framedLines s).2 := by
  induction s with
  | nil => simp [framedLines]
  | cons c cs ih =>
    simp only [framedLines]
    by_cases hc : c = '\n'
    · simpa [hc] using ih
    · simp only [if_neg hc]
      cases h : (framedLines cs).1 with
      | nil =>
        show '\n' ∉ c :: (framedLines cs).2
        intro hmem
        rcases List.mem_cons.mp hmem with h1 | h2
        · exact hc h1.symm
        · exact ih h2
      | cons l ls => exact ih

/-- A buffer without newline frames to no complete line, all of it
retained as the trailing fragment. -/
theorem framedLines_no_newline (s : List Char) (h : '\n' ∉ s) :
    framedLines s = ([], s) := by
  induction s with
  | nil => rfl
  | cons c cs ih =>
    have hc : ¬ c = '\n' := by
      intro e
      exact h (by rw [e]; exact List.mem_cons_self _ _)
    have hcs : '\n' ∉ cs := fun m => h (List.mem_cons_of_mem c m)
    simp [framedLines, ih hcs, hc]

/-- Framed-lines decomposition of a concatenation: the first part's
complete lines come first, and its trailing fragment is prepended to
the second part before framing the rest. -/
theorem framedLines_append (a b : List Char) :
    framedLines (a ++ b)
      = ((framedLines a).1 ++ (framedLines ((framedLines a).2 ++ b)).1,
         (framedLines ((framedLines a).2 ++ b)).2) := by
  induction a with
  | nil => simp [framedLines]
  | cons c a ih =>
    simp only [List.cons_append, framedLines, List.append_eq, ih]
    by_cases hc : c = '\n'
    · simp [hc]
    · simp only [if_neg hc]
      cases h : (framedLines a).1 with
      | nil =>
        simp only [h, List.nil_append, List.cons_append, framedLines, List.append_eq,
          if_neg hc, Prod.mk.eta]
      | cons l ls =>
        simp [List.cons_append, List.append_assoc]

/-- One framer step (split then pop) computes the framed-lines
decomposition of buffer ++ chunk. -/
theorem framerStep_eq (buffer chunk : List Char) :
    framerStep buffer chunk
      = ((framedLines (buffer ++ chunk)).1, (framedLines (buffer ++ chunk)).2) := by
  simp only [framerStep]
  rw [splitNl_eq_framedLines, List.dropLast_concat, List.getLastD_concat]

/-- Chunk-wise framing over any chunk sequence computes the complete
non-blank lines and the trailing fragment of the concatenated
stream. -/
theorem framerRun_eq (chunks : List (List Char)) :
    ∀ buffer : List Char, '\n' ∉ buffer →
      framerRun buffer chunks
        = (((framedLines (buffer ++ chunks.flatten)).1).filter (fun l => !(isBlankLine l)),
           (framedLines (buffer ++ chunks.flatten)).2) := by
  induction chunks with
  | nil =>
    intro buffer hb
    simp [framerRun, framedLines_no_newline buffer hb]
  | cons ch rest ih =>
    intro buffer hb
    have hb' : '\n' ∉ (framedLines (buffer ++ ch)).2 := framedLines_snd_no_newline _
    have key := framedLines_append (buffer ++ ch) rest.flatten
    simp only [framerRun, framerStep_eq, ih _ hb', List.flatten_cons,
      ← List.append_assoc, key, List.filter_append]

/-- C4 (confirmed): for any chunking of a byte stream, the candidate
messages processed are exactly the newline-terminated non-blank lines
of the concatenated stream, in order, and the retained buffer after
the run is exactly the trailing incomplete fragment (the text after
the last newline) — never an already-emitted line; hence any two
chunkings of the same stream process the same messages and retain the
same buffer. -/
theorem c4_framer_chunk_invariance (chunks chunks' : List (List Char))
    (hsame : chunks.flatten = chunks'.flatten) :
    framerRun [] chunks
      = (((framedLines chunks.flatten).1).filter (fun l => !(isBlankLine l)),
         (framedLines chunks.flatten).2)
    ∧ framerRun [] chunks = framerRun [] chunks' := by
  have h1 := framerRun_eq chunks [] (by simp)
  have h2 := framerRun_eq chunks' [] (by simp)
  simp only [List.nil_append] at h1 h2
  exact ⟨h1, by rw [h1, h2, hsame]⟩

/-- Witness for C4: the stream `a`, newline, `b` delivered as three
one-byte chunks processes the same messages and retains the same
buffer as when delivered as a single chunk. -/
theorem c4_framer_chunk_invariance_witness :
    framerRun [] [['a'], ['\n'], ['b']] = framerRun [] [['a', '\n', 'b']] :=
  (c4_framer_chunk_invariance [['a'], ['\n'], ['b']] [['a', '\n', 'b']] rfl).2
